import Mathlib

/-!
Verification development for the `MotionEstimation` base class of the
ccny_rgbd visual-odometry package
(`src/ccny_rgbd/include/ccny_rgbd/registration/motion_estimation.h`).

The repository provides only the header: the class declaration, the
`MotionConstraint` enum (`NONE = 0, ROLL_PITCH = 1, ROLL_PITCH_Z = 2`),
the member fields `b2c_` and `motion_constraint_`, the inline body of
`getModelSize` (`return 0`), and the signatures plus documentation of
`getMotionEstimation`, `setBaseToCameraTf`, `constrainMotion` and the
virtual hook `getMotionEstimationImpl`.  The method bodies live in a
`.cpp` file that is not part of the provided sources, so those
operations are modelled from the specification, as marked in the doc
comments below.

A rigid transform is represented by its roll/pitch/yaw decomposition
together with a translation vector, over exact rationals: the spec
describes the constraint projector entirely in terms of this
decomposition (extract yaw, rebuild the rotation from yaw only, zero
the vertical translation), so the decomposition is the natural state
space for the projector, and exact arithmetic replaces the spec's
"within numeric tolerance" by exact equality.
-/

namespace CcnyRgbd

/-- A rigid 3-D transform, represented by the roll/pitch/yaw
decomposition of its rotation (about the base frame's axes) together
with its translation vector.  Angles and coordinates are exact
rationals; angle values are in degrees in the concrete scenarios. -/
structure RigidTransform where
  roll : ℚ
  pitch : ℚ
  yaw : ℚ
  tx : ℚ
  ty : ℚ
  tz : ℚ
deriving DecidableEq, Repr

/-- The identity rigid transform (zero rotation, zero translation). -/
def identityTransform : RigidTransform :=
  { roll := 0, pitch := 0, yaw := 0, tx := 0, ty := 0, tz := 0 }

/-- The motion-constraint kinds, from the header:
`enum MotionConstraint {NONE = 0, ROLL_PITCH = 1, ROLL_PITCH_Z = 2};`. -/
inductive MotionConstraint where
  | NONE
  | ROLL_PITCH
  | ROLL_PITCH_Z
deriving DecidableEq, Repr

/-- The numeric values of the enum constants in the header. -/
def MotionConstraint.toNat : MotionConstraint → Nat
  | .NONE => 0
  | .ROLL_PITCH => 1
  | .ROLL_PITCH_Z => 2

/-- Modelled from the spec: the body of `MotionEstimation::constrainMotion`
is not among the provided sources (only its declaration and doc comment
are).  Following the spec's algorithm: for `Unconstrained` (`NONE`)
return the input unchanged; for `LockRollPitch` (`ROLL_PITCH`) rebuild
the rotation from yaw only (roll = pitch = 0) and keep the translation;
for `LockRollPitchAndHeight` (`ROLL_PITCH_Z`) additionally zero the
vertical (z) component of the translation. -/
def constrainMotion (k : MotionConstraint) (T : RigidTransform) : RigidTransform :=
  match k with
  | .NONE => T
  | .ROLL_PITCH => { T with roll := 0, pitch := 0 }
  | .ROLL_PITCH_Z => { T with roll := 0, pitch := 0, tz := 0 }

/-- What it means for a transform to satisfy a constraint kind exactly:
zero roll/pitch for the two constrained kinds, and additionally zero
vertical translation for the strongest kind. -/
def satisfiesConstraint (k : MotionConstraint) (T : RigidTransform) : Prop :=
  match k with
  | .NONE => True
  | .ROLL_PITCH => T.roll = 0 ∧ T.pitch = 0
  | .ROLL_PITCH_Z => T.roll = 0 ∧ T.pitch = 0 ∧ T.tz = 0

instance (k : MotionConstraint) (T : RigidTransform) :
    Decidable (satisfiesConstraint k T) := by
  cases k <;> simp only [satisfiesConstraint] <;> infer_instance

/-- The pluggable estimation strategy, the shallow counterpart of the
virtual hook `getMotionEstimationImpl(frame, prediction, motion)`:
given the strategy's internal state, a frame and a motion prediction,
it either fails (`none`) or returns the raw motion together with its
updated internal state. -/
structure EstimationStrategy (σ Frame : Type) where
  impl : σ → Frame → RigidTransform → Option (RigidTransform × σ)

/-- The error taxonomy of the estimation call. -/
inductive EstimationError where
  | EstimationFailure
deriving DecidableEq, Repr

/-- The estimator's state: the base-to-camera transform `b2c_`, the
active constraint `motion_constraint_`, and the (strategy-owned,
opaque) internal state of the concrete estimation algorithm. -/
structure MotionEstimation (σ : Type) where
  b2c : RigidTransform
  motion_constraint : MotionConstraint
  strategy_state : σ
deriving DecidableEq, Repr

/-- Modelled from the spec: a fresh estimator holds a sensible identity
default for the base-to-sensor transform before `configure` is first
called (the constructor body is not among the provided sources). -/
def initMotionEstimation {σ : Type} (s0 : σ) : MotionEstimation σ :=
  { b2c := identityTransform, motion_constraint := .NONE, strategy_state := s0 }

/-- Modelled from the spec: the body of
`MotionEstimation::getMotionEstimation` is not among the provided
sources (only its declaration and doc comment are).  Following the
spec's primary operation: delegate to the strategy with the frame and
an identity prediction hint; if the strategy fails, return an
`EstimationFailure` outcome and leave the estimator's state exactly as
it was; on success, apply the constraint projector with the currently
active constraint kind to the raw transform and return the projected
transform, recording the strategy's updated internal state. -/
def getMotionEstimation {σ Frame : Type} (strat : EstimationStrategy σ Frame)
    (s : MotionEstimation σ) (frame : Frame) :
    Except EstimationError RigidTransform × MotionEstimation σ :=
  match strat.impl s.strategy_state frame identityTransform with
  | none => (Except.error EstimationError.EstimationFailure, s)
  | some (raw, st) =>
      (Except.ok (constrainMotion s.motion_constraint raw),
       { s with strategy_state := st })

/-- Modelled from the spec: the body of
`MotionEstimation::setBaseToCameraTf` is not among the provided sources.
It stores the given base-to-camera transform in `b2c_`; it is a total
function, accepted for every input. -/
def setBaseToCameraTf {σ : Type} (s : MotionEstimation σ)
    (b2c : RigidTransform) : MotionEstimation σ :=
  { s with b2c := b2c }

/-- Modelled from the spec: `setMotionConstraint(kind)` switches the
active constraint kind stored in `motion_constraint_`, touching nothing
else. -/
def setMotionConstraint {σ : Type} (s : MotionEstimation σ)
    (k : MotionConstraint) : MotionEstimation σ :=
  { s with motion_constraint := k }

/-- The base-class `getModelSize`, whose inline body is in the header:
`virtual int getModelSize() const { return 0; }`.  It is a `const`
method, so it is modelled as returning the answer together with the
(unchanged) estimator state. -/
def getModelSize {σ : Type} (s : MotionEstimation σ) :
    Int × MotionEstimation σ :=
  (0, s)

/-- The projected transform satisfies the constraint it was projected
under (shared helper). -/
theorem constrainMotion_satisfies (k : MotionConstraint) (T : RigidTransform) :
    satisfiesConstraint k (constrainMotion k T) := by
  cases k <;> simp [constrainMotion, satisfiesConstraint]

/-- Claim C1: whenever the strategy succeeds, `getMotionEstimation`
returns exactly the raw strategy transform projected by
`constrainMotion` under the currently active constraint kind, and
whenever that kind is not `NONE`, the returned incremental motion
satisfies the constraint exactly. -/
theorem getMotionEstimation_applies_constraint {σ Frame : Type}
    (strat : EstimationStrategy σ Frame) (s : MotionEstimation σ)
    (frame : Frame) (m : RigidTransform) (s' : MotionEstimation σ)
    (h : getMotionEstimation strat s frame = (Except.ok m, s')) :
    (∃ raw st, strat.impl s.strategy_state frame identityTransform = some (raw, st) ∧
        m = constrainMotion s.motion_constraint raw) ∧
    (s.motion_constraint ≠ MotionConstraint.NONE → satisfiesConstraint s.motion_constraint m) := by
  unfold getMotionEstimation at h
  cases himpl : strat.impl s.strategy_state frame identityTransform with
  | none => rw [himpl] at h; simp at h
  | some p =>
      rw [himpl] at h
      obtain ⟨raw, st⟩ := p
      simp only [Prod.mk.injEq, Except.ok.injEq] at h
      refine ⟨⟨raw, st, rfl, h.1.symm⟩, fun _ => ?_⟩
      rw [← h.1]
      exact constrainMotion_satisfies s.motion_constraint raw

/-- A concrete strategy used to instantiate theorems with hypotheses:
it always succeeds with the raw transform of the spec's concrete
scenario (yaw 30, roll 5, pitch -3, translation (1, 1/5, 1/20)). -/
def scenarioStrategy : EstimationStrategy Unit Unit :=
  { impl := fun _ _ _ =>
      some ({ roll := 5, pitch := -3, yaw := 30, tx := 1, ty := 1/5, tz := 1/20 }, ()) }

/-- A concrete estimator state with the `ROLL_PITCH` constraint active. -/
def scenarioState : MotionEstimation Unit :=
  { b2c := identityTransform, motion_constraint := .ROLL_PITCH, strategy_state := () }

/-- Witness for claim C1 at the concrete scenario. -/
theorem getMotionEstimation_applies_constraint_witness :
    (∃ raw st, scenarioStrategy.impl scenarioState.strategy_state () identityTransform
          = some (raw, st) ∧
        ({ roll := 0, pitch := 0, yaw := 30, tx := 1, ty := 1/5, tz := 1/20 } : RigidTransform)
          = constrainMotion scenarioState.motion_constraint raw) ∧
    (scenarioState.motion_constraint ≠ MotionConstraint.NONE →
      satisfiesConstraint scenarioState.motion_constraint
        { roll := 0, pitch := 0, yaw := 30, tx := 1, ty := 1/5, tz := 1/20 }) :=
  getMotionEstimation_applies_constraint scenarioStrategy scenarioState ()
    { roll := 0, pitch := 0, yaw := 30, tx := 1, ty := 1/5, tz := 1/20 }
    { scenarioState with strategy_state := () } rfl

/-- Claim C2: projecting any transform under the `NONE` (Unconstrained)
constraint returns it unchanged. -/
theorem constrainMotion_none_id (T : RigidTransform) :
    constrainMotion MotionConstraint.NONE T = T :=
  rfl

/-- Claim C3: the constraint projection is idempotent for every
constraint kind. -/
theorem constrainMotion_idem (k : MotionConstraint) (T : RigidTransform) :
    constrainMotion k (constrainMotion k T) = constrainMotion k T := by
  cases k <;> rfl

/-- Claim C4: projecting under `ROLL_PITCH` zeroes roll and pitch while
leaving yaw and the full translation unchanged; in particular, the
spec's concrete scenario (yaw 30, roll 5, pitch -3, translation
(1, 1/5, 1/20)) maps to (yaw 30, roll 0, pitch 0, same translation). -/
theorem constrainMotion_rollPitch (T : RigidTransform) :
    (constrainMotion MotionConstraint.ROLL_PITCH T).roll = 0 ∧
    (constrainMotion MotionConstraint.ROLL_PITCH T).pitch = 0 ∧
    (constrainMotion MotionConstraint.ROLL_PITCH T).yaw = T.yaw ∧
    (constrainMotion MotionConstraint.ROLL_PITCH T).tx = T.tx ∧
    (constrainMotion MotionConstraint.ROLL_PITCH T).ty = T.ty ∧
    (constrainMotion MotionConstraint.ROLL_PITCH T).tz = T.tz ∧
    constrainMotion MotionConstraint.ROLL_PITCH
        { roll := 5, pitch := -3, yaw := 30, tx := 1, ty := 1/5, tz := 1/20 }
      = { roll := 0, pitch := 0, yaw := 30, tx := 1, ty := 1/5, tz := 1/20 } := by
  refine ⟨rfl, rfl, rfl, rfl, rfl, rfl, ?_⟩
  rfl

/-- Claim C5: projecting under `ROLL_PITCH_Z` applies the same rotation
correction as `ROLL_PITCH` (zero roll and pitch, yaw preserved) and
additionally zeroes the vertical translation component, leaving the
horizontal components unchanged. -/
theorem constrainMotion_rollPitchZ (T : RigidTransform) :
    (constrainMotion MotionConstraint.ROLL_PITCH_Z T).roll
      = (constrainMotion MotionConstraint.ROLL_PITCH T).roll ∧
    (constrainMotion MotionConstraint.ROLL_PITCH_Z T).pitch
      = (constrainMotion MotionConstraint.ROLL_PITCH T).pitch ∧
    (constrainMotion MotionConstraint.ROLL_PITCH_Z T).yaw
      = (constrainMotion MotionConstraint.ROLL_PITCH T).yaw ∧
    (constrainMotion MotionConstraint.ROLL_PITCH_Z T).roll = 0 ∧
    (constrainMotion MotionConstraint.ROLL_PITCH_Z T).pitch = 0 ∧
    (constrainMotion MotionConstraint.ROLL_PITCH_Z T).yaw = T.yaw ∧
    (constrainMotion MotionConstraint.ROLL_PITCH_Z T).tz = 0 ∧
    (constrainMotion MotionConstraint.ROLL_PITCH_Z T).tx = T.tx ∧
    (constrainMotion MotionConstraint.ROLL_PITCH_Z T).ty = T.ty :=
  ⟨rfl, rfl, rfl, rfl, rfl, rfl, rfl, rfl, rfl⟩

/-- Claim C6: when the strategy fails, the estimation call returns the
`EstimationFailure` outcome with no motion, leaves the estimator state
exactly as it was, and a subsequent call behaves as if the failed call
never occurred. -/
theorem getMotionEstimation_failure_isolation {σ Frame : Type}
    (strat : EstimationStrategy σ Frame) (s : MotionEstimation σ) (frame : Frame)
    (h : strat.impl s.strategy_state frame identityTransform = none) :
    getMotionEstimation strat s frame
        = (Except.error EstimationError.EstimationFailure, s) ∧
    ∀ frame2 : Frame,
      getMotionEstimation strat (getMotionEstimation strat s frame).2 frame2
        = getMotionEstimation strat s frame2 := by
  have hfail : getMotionEstimation strat s frame
      = (Except.error EstimationError.EstimationFailure, s) := by
    unfold getMotionEstimation
    rw [h]
  exact ⟨hfail, fun frame2 => by rw [hfail]⟩

/-- A concrete strategy that always reports failure. -/
def failingStrategy : EstimationStrategy Unit Unit :=
  { impl := fun _ _ _ => none }

/-- Witness for claim C6 with the always-failing strategy. -/
theorem getMotionEstimation_failure_isolation_witness :
    getMotionEstimation failingStrategy scenarioState ()
        = (Except.error EstimationError.EstimationFailure, scenarioState) ∧
    ∀ frame2 : Unit,
      getMotionEstimation failingStrategy
          (getMotionEstimation failingStrategy scenarioState ()).2 frame2
        = getMotionEstimation failingStrategy scenarioState frame2 :=
  getMotionEstimation_failure_isolation failingStrategy scenarioState () rfl

/-- Claim C7: `setMotionConstraint` switches exactly the active
constraint kind (all other estimator state is untouched), and an
estimation call made after the setter projects the raw transform with
the new kind. -/
theorem setMotionConstraint_takes_effect {σ Frame : Type}
    (strat : EstimationStrategy σ Frame) (s : MotionEstimation σ)
    (k : MotionConstraint) (frame : Frame) (raw : RigidTransform) (st : σ)
    (h : strat.impl s.strategy_state frame identityTransform = some (raw, st)) :
    (setMotionConstraint s k).motion_constraint = k ∧
    (setMotionConstraint s k).b2c = s.b2c ∧
    (setMotionConstraint s k).strategy_state = s.strategy_state ∧
    (getMotionEstimation strat (setMotionConstraint s k) frame).1
      = Except.ok (constrainMotion k raw) := by
  refine ⟨rfl, rfl, rfl, ?_⟩
  unfold getMotionEstimation setMotionConstraint
  rw [show ({ s with motion_constraint := k } : MotionEstimation σ).strategy_state
        = s.strategy_state from rfl, h]

/-- Witness for claim C7: switching the scenario estimator to the
`ROLL_PITCH_Z` constraint takes effect on the next call. -/
theorem setMotionConstraint_takes_effect_witness :
    (setMotionConstraint scenarioState MotionConstraint.ROLL_PITCH_Z).motion_constraint
        = MotionConstraint.ROLL_PITCH_Z ∧
    (setMotionConstraint scenarioState MotionConstraint.ROLL_PITCH_Z).b2c
        = scenarioState.b2c ∧
    (setMotionConstraint scenarioState MotionConstraint.ROLL_PITCH_Z).strategy_state
        = scenarioState.strategy_state ∧
    (getMotionEstimation scenarioStrategy
        (setMotionConstraint scenarioState MotionConstraint.ROLL_PITCH_Z) ()).1
      = Except.ok (constrainMotion MotionConstraint.ROLL_PITCH_Z
          { roll := 5, pitch := -3, yaw := 30, tx := 1, ty := 1/5, tz := 1/20 }) :=
  setMotionConstraint_takes_effect scenarioStrategy scenarioState
    MotionConstraint.ROLL_PITCH_Z ()
    { roll := 5, pitch := -3, yaw := 30, tx := 1, ty := 1/5, tz := 1/20 } () rfl

/-- Claim C8: `setBaseToCameraTf` stores the given transform and changes
nothing else; it is a total operation defined for every input transform
and every estimator state, and a fresh estimator defaults to the
identity base-to-camera transform. -/
theorem setBaseToCameraTf_spec {σ : Type} (s : MotionEstimation σ)
    (b2c : RigidTransform) (s0 : σ) :
    (setBaseToCameraTf s b2c).b2c = b2c ∧
    (setBaseToCameraTf s b2c).motion_constraint = s.motion_constraint ∧
    (setBaseToCameraTf s b2c).strategy_state = s.strategy_state ∧
    (initMotionEstimation s0).b2c = identityTransform :=
  ⟨rfl, rfl, rfl, rfl⟩

/-- Claim C9: the base-class `getModelSize` returns 0 and leaves the
estimator state completely unchanged. -/
theorem getModelSize_spec {σ : Type} (s : MotionEstimation σ) :
    (getModelSize s).1 = 0 ∧ (getModelSize s).2 = s :=
  ⟨rfl, rfl⟩

/-- Claim C10: the core observes the frame only by forwarding it to the
strategy: any two frames on which the strategy call gives the same
answer give identical estimation results (outcome and estimator state),
so the core itself neither queries nor mutates frame internals. -/
theorem getMotionEstimation_frame_opaque {σ Frame : Type}
    (strat : EstimationStrategy σ Frame) (s : MotionEstimation σ)
    (f1 f2 : Frame)
    (h : strat.impl s.strategy_state f1 identityTransform
          = strat.impl s.strategy_state f2 identityTransform) :
    getMotionEstimation strat s f1 = getMotionEstimation strat s f2 := by
  unfold getMotionEstimation
  rw [h]

/-- Witness for claim C10 at a concrete frame. -/
theorem getMotionEstimation_frame_opaque_witness :
    getMotionEstimation scenarioStrategy scenarioState ()
      = getMotionEstimation scenarioStrategy scenarioState () :=
  getMotionEstimation_frame_opaque scenarioStrategy scenarioState () () rfl

end CcnyRgbd
